import Mathlib

/-!
Shallow embedding of the SSL-certificate checking core of the cyber-fort
repository (src/unnamed/part_000): the domain matcher `matchesDomain`, the
certificate evaluator `checkSSLCertificate`, and the `/check-url` route
handler's result-merging logic.

JavaScript strings are modelled as Lean `String`; the JS string methods used
by the source (`toLowerCase`, `startsWith`, `endsWith`, `substring`,
`lastIndexOf`, `split`, `join`) are embedded as explicit functions over the
underlying character list.  All inputs in this code base are ASCII hostnames
and certificate names, on which `Char.toLower` agrees with JS `toLowerCase`.
-/

namespace CyberFort

/-- JS `s.toLowerCase()` (ASCII range, as used on hostnames). -/
def jsToLower (s : String) : String := ⟨s.data.map Char.toLower⟩

/-- JS `s.startsWith(t)`. -/
def jsStartsWith (s t : String) : Bool := t.data.isPrefixOf s.data

/-- JS `s.endsWith(t)`. -/
def jsEndsWith (s t : String) : Bool := t.data.isSuffixOf s.data

/-- JS `s.substring(n)`: drop the first `n` characters. -/
def jsSubstring (s : String) (n : Nat) : String := ⟨s.data.drop n⟩

/-- JS `Array.prototype.lastIndexOf` over characters: index of the last
occurrence of `c`, or `-1` when absent. -/
def lastIndexOfAux : List Char → Char → Int
  | [], _ => -1
  | x :: xs, c =>
    let r := lastIndexOfAux xs c
    if 0 ≤ r then r + 1 else if x = c then 0 else -1

/-- JS `s.lastIndexOf(c)` for a single character `c`. -/
def jsLastIndexOf (s : String) (c : Char) : Int := lastIndexOfAux s.data c

/-- Embedding of `matchesDomain` (src/unnamed/part_000, lines 386-403):
lowercase both arguments; exact match; otherwise wildcard names of the form
`*.` followed by a base domain match when the hostname ends with the base
domain and the hostname's last dot sits at an index greater than zero. -/
def matchesDomain (hostname certName : String) : Bool :=
  let hostname := jsToLower hostname
  let certName := jsToLower certName
  if hostname = certName then
    true
  else if jsStartsWith certName "*." then
    let certDomain := jsSubstring certName 2
    jsEndsWith hostname certDomain && decide (0 < jsLastIndexOf hostname '.')
  else
    false

/-- Result type of `checkSSLCertificate`: `{ isValid: boolean; issues: string[] }`. -/
structure ValidationResult where
  isValid : Bool
  issues : List String
deriving Repr, DecidableEq

/-- Certificate subject as consulted by the evaluator: `cert.subject.CN`,
where both the subject object and the `CN` field may be absent. -/
structure SubjectInfo where
  CN : Option String
deriving Repr, DecidableEq

/-- Fields of the Node peer certificate used by `checkSSLCertificate`:
`valid_from` / `valid_to` (modelled as integer timestamps, as compared via
`Date`), the optional subject, and the raw `subjectaltname` string
(for example `"DNS:a.com, DNS:b.com"`), absent when the certificate carries
no subject-alternative-name extension. -/
structure CertificateInfo where
  valid_from : Int
  valid_to : Int
  subject : Option SubjectInfo
  subjectaltname : Option String
deriving Repr, DecidableEq

/-- Date formatting for the expiry issue.  The source renders the dates with
`toLocaleDateString()`; the model renders the underlying timestamp. -/
def formatDate (t : Int) : String := toString t

/-- The issue string pushed when `now < validFrom || now > validTo`
(src/unnamed/part_000, line 335). -/
def expiryIssue (validFrom validTo : Int) : String :=
  "Certificate expired or not yet valid (valid from " ++ formatDate validFrom ++
    " to " ++ formatDate validTo ++ ")"

/-- The expiry check of `checkSSLCertificate` (lines 329-336): a single issue
when `now` lies outside the validity window, nothing otherwise. -/
def expiryIssues (now : Int) (cert : CertificateInfo) : List String :=
  if now < cert.valid_from ∨ now > cert.valid_to then
    [expiryIssue cert.valid_from cert.valid_to]
  else
    []

/-- JS `s.split(', ')` over character lists: cut at each leftmost,
non-overlapping occurrence of the two-character separator `", "`. -/
def splitCommaSpace : List Char → List (List Char)
  | [] => [[]]
  | [x] => [[x]]
  | x :: y :: rest =>
    if x = ',' ∧ y = ' ' then
      [] :: splitCommaSpace rest
    else
      match splitCommaSpace (y :: rest) with
      | [] => [[x]]
      | l :: ls => (x :: l) :: ls

/-- JS `s.split(', ')`. -/
def jsSplitCommaSpace (s : String) : List String :=
  (splitCommaSpace s.data).map String.mk

/-- Parsing of `cert.subjectaltname` (lines 345-347): split on `", "` and
strip a leading `"DNS:"` from each entry; an absent field yields `[]`
(the `?.` / `|| []` path). -/
def parseAltNames : Option String → List String
  | none => []
  | some s =>
    (jsSplitCommaSpace s).map fun name =>
      if jsStartsWith name "DNS:" then jsSubstring name 4 else name

/-- The domain-mismatch issue string (line 358). -/
def mismatchIssue (cn hostname : String) : String :=
  "Certificate domain mismatch (cert: " ++ cn ++ ", requested: " ++ hostname ++ ")"

/-- The CN/SAN check of `checkSSLCertificate` (lines 338-361): only when the
subject exists and its `CN` is truthy (present and non-empty) is matching
attempted; when the CN fails, every alternative name is tried, and only if
none matches is the mismatch issue produced. -/
def domainIssues (hostname : String) (cert : CertificateInfo) : List String :=
  match cert.subject with
  | none => []
  | some subj =>
    match subj.CN with
    | none => []
    | some cn =>
      if cn = "" then []
      else if matchesDomain hostname cn then []
      else if (parseAltNames cert.subjectaltname).any
          (fun altName => matchesDomain hostname altName) then []
      else [mismatchIssue cn hostname]

/-- The fields of the parsed URL (`new URL(urlString)`, a Node library
collaborator) that `checkSSLCertificate` reads. -/
structure ParsedUrl where
  protocol : String
  hostname : String
deriving Repr, DecidableEq

/-- The single event that settles the promise of the HTTPS HEAD request
opened by `checkSSLCertificate`: the response callback firing (with the
peer certificate, `none` when the certificate object is missing or empty),
the `error` event, or the `timeout` event. -/
inductive FetchEvent where
  | response (cert : Option CertificateInfo)
  | connError (message : String)
  | timeout
deriving Repr, DecidableEq

/-- Embedding of `checkSSLCertificate` (src/unnamed/part_000, lines 298-383)
over the parsed URL, the evaluation time and the event that settles the
request.  The first component is the resolved `ValidationResult`; the second
records whether `req.destroy()` was invoked (the timeout handler, line 373).
A non-HTTPS URL resolves before any request is created, so the result is
independent of the network event. -/
def checkSSLCertificate (u : ParsedUrl) (now : Int) (ev : FetchEvent) :
    ValidationResult × Bool :=
  if u.protocol ≠ "https:" then
    ({ isValid := false, issues := ["Not using HTTPS (secure connection)"] }, false)
  else
    match ev with
    | .response none =>
      ({ isValid := false, issues := ["No SSL certificate found"] }, false)
    | .response (some cert) =>
      let issues := expiryIssues now cert ++ domainIssues u.hostname cert
      ({ isValid := issues.isEmpty, issues := issues }, false)
    | .connError message =>
      ({ isValid := false, issues := ["SSL connection error: " ++ message] }, false)
    | .timeout =>
      ({ isValid := false, issues := ["Connection timed out"] }, true)

/-- VirusTotal analysis statistics consumed by the `/check-url` handler. -/
structure VTStats where
  malicious : Nat
  suspicious : Nat
deriving Repr, DecidableEq

/-- Outcome of the SSL block of the `/check-url` handler (lines 75-92):
either the URL was not HTTPS (no check performed), or `checkSSLCertificate`
resolved to a result, or the check threw (caught and logged). -/
inductive SslOutcome where
  | notChecked
  | checked (r : ValidationResult)
  | threw
deriving Repr, DecidableEq

/-- The record passed to `storage.createUrlCheck` (lines 95-102), minus the
timestamp. -/
structure UrlCheckRecord where
  url : String
  isSafe : Bool
  result : String
deriving Repr, DecidableEq

/-- The JSON payload of the 200 response of `/check-url` (lines 111-118),
minus the history list. -/
structure UrlCheckResponse where
  url : String
  isSafe : Bool
  result : String
  sslIssues : Option (List String)
  hasSslIssues : Bool
deriving Repr, DecidableEq

/-- Embedding of the success path of the `/check-url` handler
(src/unnamed/part_000, lines 62-118): from the VirusTotal stats and the SSL
outcome, compute `isSafe` and the result strings, and build both the stored
record and the response payload. -/
def processUrlCheck (url : String) (stats : VTStats) (ssl : SslOutcome) :
    UrlCheckRecord × UrlCheckResponse :=
  let isSafe := stats.malicious == 0 && stats.suspicious == 0
  let result :=
    if isSafe then "No threats detected"
    else
      "Detected as malicious by " ++ toString stats.malicious ++
        " and suspicious by " ++ toString stats.suspicious ++ " security vendors"
  let state :=
    match ssl with
    | .notChecked => (([] : List String), false, result)
    | .threw => (([] : List String), false, result)
    | .checked r =>
      if !r.isValid then
        (r.issues, true,
          if isSafe then
            "No malware detected, but SSL certificate has issues: " ++
              String.intercalate "; " r.issues
          else result)
      else (([] : List String), false, result)
  let sslIssues := state.1
  let hasSslIssues := state.2.1
  let result := state.2.2
  let record : UrlCheckRecord :=
    { url := url
      isSafe := isSafe
      result :=
        if hasSslIssues && isSafe then
          "No malware detected, but SSL certificate has issues: " ++
            String.intercalate "; " sslIssues
        else result }
  let response : UrlCheckResponse :=
    { url := url
      isSafe := isSafe
      result := result
      sslIssues := if sslIssues.length > 0 then some sslIssues else none
      hasSslIssues := hasSslIssues }
  (record, response)

/-! Helper lemmas about the string model. -/

lemma char_toNat_ofNat {n : Nat} (h : n.isValidChar) : (Char.ofNat n).toNat = n := by
  rw [Char.ofNat, dif_pos h]
  rfl

lemma toLower_eq_of_lt_65 {a : Char} (ha : a.toNat < 65) (x : Char) :
    x.toLower = a ↔ x = a := by
  constructor
  · intro hx
    rw [Char.toLower] at hx
    split at hx
    · exfalso
      rename_i hup
      have hv : (x.toNat + 32).isValidChar := Or.inl (by omega)
      have := char_toNat_ofNat hv
      rw [hx] at this
      omega
    · exact hx
  · intro hx
    subst hx
    rw [Char.toLower]
    rw [if_neg]
    omega

lemma isPrefixOf_append_self (l t : List Char) : l.isPrefixOf (l ++ t) = true := by
  induction l with
  | nil => simp
  | cons a as ih => simp [List.isPrefixOf_cons₂, ih]

lemma isSuffixOf_append_self (l t : List Char) : t.isSuffixOf (l ++ t) = true := by
  rw [List.isSuffixOf, List.reverse_append]
  exact isPrefixOf_append_self t.reverse l.reverse

lemma lastIndexOfAux_cons_self (c : Char) (l : List Char) :
    0 ≤ lastIndexOfAux (c :: l) c := by
  simp only [lastIndexOfAux]
  split
  · omega
  · simp

lemma lastIndexOfAux_cons_cons (a c : Char) (l : List Char) :
    0 < lastIndexOfAux (a :: c :: l) c := by
  have h := lastIndexOfAux_cons_self c l
  simp only [lastIndexOfAux] at h ⊢
  split
  · omega
  · omega

lemma string_mk_data (s : String) : String.mk s.data = s := by
  cases s
  rfl

lemma jsToLower_data (s : String) : (jsToLower s).data = s.data.map Char.toLower := rfl

lemma jsToLower_append (s t : String) :
    jsToLower (s ++ t) = jsToLower s ++ jsToLower t := by
  apply congrArg String.mk
  simp [jsToLower_data]

lemma jsToLower_wildcard (d : String) :
    jsToLower ("*." ++ d) = "*." ++ jsToLower d := by
  rw [jsToLower_append]
  rfl

lemma data_wildcard_append (d : String) :
    ("*." ++ d).data = '*' :: '.' :: d.data := by
  rw [String.data_append]
  rfl

lemma jsStartsWith_wildcard (d : String) : jsStartsWith ("*." ++ d) "*." = true := by
  rw [jsStartsWith, data_wildcard_append]
  show List.isPrefixOf ['*', '.'] (['*', '.'] ++ d.data) = true
  exact isPrefixOf_append_self ['*', '.'] d.data

lemma jsSubstring_wildcard (d : String) : jsSubstring ("*." ++ d) 2 = d := by
  rw [jsSubstring, data_wildcard_append]
  exact string_mk_data d

lemma jsEndsWith_wildcard_self (d : String) : jsEndsWith ("*." ++ d) d = true := by
  rw [jsEndsWith, data_wildcard_append]
  show List.isSuffixOf d.data (['*', '.'] ++ d.data) = true
  exact isSuffixOf_append_self ['*', '.'] d.data

lemma jsLastIndexOf_wildcard_pos (d : String) : 0 < jsLastIndexOf ("*." ++ d) '.' := by
  rw [jsLastIndexOf, data_wildcard_append]
  exact lastIndexOfAux_cons_cons '*' '.' d.data

/-- Characterization of the wildcard branch: for a certificate name of the
form `"*." ++ d`, `matchesDomain` reduces to the suffix test together with
the last-dot-index test on the lowercased hostname.  The exact-match branch
is absorbed: a hostname equal to the lowercased wildcard name also passes
both tests. -/
lemma matchesDomain_wildcard_eq (h d : String) :
    matchesDomain h ("*." ++ d) =
      (jsEndsWith (jsToLower h) (jsToLower d) &&
        decide (0 < jsLastIndexOf (jsToLower h) '.')) := by
  rw [matchesDomain]
  simp only [jsToLower_wildcard]
  by_cases heq : jsToLower h = "*." ++ jsToLower d
  · rw [if_pos heq, heq]
    rw [jsEndsWith_wildcard_self]
    have := jsLastIndexOf_wildcard_pos (jsToLower d)
    simp [this]
  · rw [if_neg heq, jsStartsWith_wildcard, jsSubstring_wildcard]
    rfl

lemma beq_toLower_eq {a : Char} (ha : a.toNat < 65) (x : Char) :
    (a == x.toLower) = (a == x) := by
  rw [Bool.eq_iff_iff]
  simp only [beq_iff_eq]
  constructor
  · intro h
    exact ((toLower_eq_of_lt_65 ha x).mp h.symm).symm
  · intro h
    subst h
    exact ((toLower_eq_of_lt_65 ha a).mpr rfl).symm

lemma jsStartsWith_star_toLower (c : String) :
    jsStartsWith (jsToLower c) "*." = jsStartsWith c "*." := by
  rw [jsStartsWith, jsStartsWith, jsToLower_data]
  have hd : "*.".data = ['*', '.'] := rfl
  rw [hd]
  cases c.data with
  | nil => rfl
  | cons x xs =>
    cases xs with
    | nil =>
      simp [List.isPrefixOf, List.isPrefixOf_cons₂]
    | cons y ys =>
      simp only [List.map_cons, List.isPrefixOf_cons₂, List.isPrefixOf,
        List.isPrefixOf_nil_left, Bool.and_true]
      rw [beq_toLower_eq (by decide) x, beq_toLower_eq (by decide) y]

lemma matchesDomain_toLower_inv (h c h₂ c₂ : String)
    (eh : jsToLower h₂ = jsToLower h) (ec : jsToLower c₂ = jsToLower c) :
    matchesDomain h₂ c₂ = matchesDomain h c := by
  rw [matchesDomain, matchesDomain, eh, ec]

lemma domainIssues_cn_falsy (hostname : String) (cert : CertificateInfo)
    (hcn : cert.subject = none ∨
      ∃ subj, cert.subject = some subj ∧ (subj.CN = none ∨ subj.CN = some "")) :
    domainIssues hostname cert = [] := by
  rcases hcn with h1 | ⟨subj, hs, hC⟩
  · rw [domainIssues, h1]
  · rcases hC with h2 | h2 <;> simp [domainIssues, hs, h2]

/-! Claim theorems. -/

/-- C1 (counterexample).  The claim states that
`matchesDomain("example.com", "*.example.com")` returns false because there
is no label before the matched suffix; the code returns true, because its
wildcard branch only tests `hostname.lastIndexOf('.') > 0`, which holds for
`"example.com"` (last dot at index 7). -/
theorem matchesDomain_bare_domain_counterexample :
    matchesDomain "example.com" "*.example.com" = true := by decide

/-- C1 (amended).  For every hostname `h` and wildcard certificate name
`"*." ++ d`, `matchesDomain` returns true iff the lowercased hostname ends
with the lowercased base domain and the last `'.'` of the lowercased
hostname sits at an index greater than zero — a dot anywhere past position
zero suffices, not necessarily one before the matched suffix; in particular
`matchesDomain("example.com", "*.example.com")` returns true. -/
theorem matchesDomain_wildcard_characterization :
    (∀ h d : String,
      matchesDomain h ("*." ++ d) =
        (jsEndsWith (jsToLower h) (jsToLower d) &&
          decide (0 < jsLastIndexOf (jsToLower h) '.'))) ∧
      matchesDomain "example.com" "*.example.com" = true := by
  refine ⟨fun h d => matchesDomain_wildcard_eq h d, by decide⟩

/-- C2.  For a fetched certificate whose subject common name is present,
non-empty and fails `matchesDomain` against the requested hostname, if every
subject-alternative-name entry fails as well, `checkSSLCertificate` appends
the domain-mismatch issue naming the CN and the hostname, and the result has
`isValid = false`. -/
theorem checkSSLCertificate_domain_mismatch
    (u : ParsedUrl) (now : Int) (cert : CertificateInfo) (subj : SubjectInfo) (cn : String)
    (hp : u.protocol = "https:")
    (hsub : cert.subject = some subj)
    (hcn : subj.CN = some cn)
    (hne : cn ≠ "")
    (hcnm : matchesDomain u.hostname cn = false)
    (hsan : ∀ a ∈ parseAltNames cert.subjectaltname, matchesDomain u.hostname a = false) :
    mismatchIssue cn u.hostname ∈
        (checkSSLCertificate u now (.response (some cert))).1.issues ∧
      (checkSSLCertificate u now (.response (some cert))).1.isValid = false := by
  have hany : ((parseAltNames cert.subjectaltname).any
      fun altName => matchesDomain u.hostname altName) = false := by
    rw [List.any_eq_false]
    intro x hx
    simp [hsan x hx]
  have hdom : domainIssues u.hostname cert = [mismatchIssue cn u.hostname] := by
    simp [domainIssues, hsub, hcn, hne, hcnm, hany]
  constructor
  · simp [checkSSLCertificate, hp, hdom]
  · simp [checkSSLCertificate, hp, hdom]

/-- C2 (witness). -/
theorem checkSSLCertificate_domain_mismatch_witness :
    mismatchIssue "good.com" "evil.com" ∈
        (checkSSLCertificate ⟨"https:", "evil.com"⟩ 50
          (.response (some ⟨0, 100, some ⟨some "good.com"⟩,
            some "DNS:alt.com, DNS:other.org"⟩))).1.issues ∧
      (checkSSLCertificate ⟨"https:", "evil.com"⟩ 50
        (.response (some ⟨0, 100, some ⟨some "good.com"⟩,
          some "DNS:alt.com, DNS:other.org"⟩))).1.isValid = false :=
  checkSSLCertificate_domain_mismatch ⟨"https:", "evil.com"⟩ 50
    ⟨0, 100, some ⟨some "good.com"⟩, some "DNS:alt.com, DNS:other.org"⟩
    ⟨some "good.com"⟩ "good.com" rfl rfl rfl (by decide) (by decide) (by decide)

/-- C3.  For every parsed URL, evaluation time and settling event — success,
non-HTTPS input, absent certificate, connection error, or timeout — the
`ValidationResult` produced by `checkSSLCertificate` has `isValid = true`
iff its issue list is empty. -/
theorem checkSSLCertificate_isValid_iff_issues_nil
    (u : ParsedUrl) (now : Int) (ev : FetchEvent) :
    (checkSSLCertificate u now ev).1.isValid = true ↔
      (checkSSLCertificate u now ev).1.issues = [] := by
  by_cases hp : u.protocol ≠ "https:"
  · simp [checkSSLCertificate, hp]
  · cases ev with
    | response c =>
      cases c with
      | none => simp [checkSSLCertificate, hp]
      | some cert => simp [checkSSLCertificate, hp, List.isEmpty_iff]
    | connError m => simp [checkSSLCertificate, hp]
    | timeout => simp [checkSSLCertificate, hp]

/-- C3 (witness, discharging the hypothesis-free statement is direct; kept
for uniform evaluation coverage of the success branch). -/
theorem checkSSLCertificate_isValid_iff_issues_nil_witness :
    (checkSSLCertificate ⟨"https:", "a.com"⟩ 5
        (.response (some ⟨0, 10, some ⟨some "a.com"⟩, none⟩))).1.isValid = true ↔
      (checkSSLCertificate ⟨"https:", "a.com"⟩ 5
        (.response (some ⟨0, 10, some ⟨some "a.com"⟩, none⟩))).1.issues = [] :=
  checkSSLCertificate_isValid_iff_issues_nil ⟨"https:", "a.com"⟩ 5
    (.response (some ⟨0, 10, some ⟨some "a.com"⟩, none⟩))

/-- C4.  For every URL whose scheme is not `https:`, `checkSSLCertificate`
resolves — for every possible network event, i.e. without consulting the
network at all, and without any request to destroy — to `isValid = false`
with exactly the single issue "Not using HTTPS (secure connection)". -/
theorem checkSSLCertificate_non_https (u : ParsedUrl) (now : Int) (ev : FetchEvent)
    (hp : u.protocol ≠ "https:") :
    checkSSLCertificate u now ev =
      ({ isValid := false, issues := ["Not using HTTPS (secure connection)"] }, false) := by
  cases ev <;> simp [checkSSLCertificate, hp]

/-- C4 (witness). -/
theorem checkSSLCertificate_non_https_witness :
    checkSSLCertificate ⟨"http:", "example.com"⟩ 0 .timeout =
      ({ isValid := false, issues := ["Not using HTTPS (secure connection)"] }, false) :=
  checkSSLCertificate_non_https ⟨"http:", "example.com"⟩ 0 .timeout (by decide)

/-- C5.  When the evaluation time lies outside the certificate's validity
window — `now < validFrom` or `now > validTo`, including a `validFrom` in
the future — `checkSSLCertificate` appends the expired-or-not-yet-valid
issue carrying the formatted window, and the result has `isValid = false`. -/
theorem checkSSLCertificate_expiry (u : ParsedUrl) (now : Int) (cert : CertificateInfo)
    (hp : u.protocol = "https:")
    (hw : now < cert.valid_from ∨ now > cert.valid_to) :
    expiryIssue cert.valid_from cert.valid_to ∈
        (checkSSLCertificate u now (.response (some cert))).1.issues ∧
      (checkSSLCertificate u now (.response (some cert))).1.isValid = false := by
  have he : expiryIssues now cert = [expiryIssue cert.valid_from cert.valid_to] := by
    rw [expiryIssues, if_pos hw]
  constructor
  · simp [checkSSLCertificate, hp, he]
  · simp [checkSSLCertificate, hp, he]

/-- C5 (witness): a certificate with `validFrom` in the future. -/
theorem checkSSLCertificate_expiry_witness :
    expiryIssue 100 200 ∈
        (checkSSLCertificate ⟨"https:", "a.com"⟩ 5
          (.response (some ⟨100, 200, some ⟨some "a.com"⟩, none⟩))).1.issues ∧
      (checkSSLCertificate ⟨"https:", "a.com"⟩ 5
        (.response (some ⟨100, 200, some ⟨some "a.com"⟩, none⟩))).1.isValid = false :=
  checkSSLCertificate_expiry ⟨"https:", "a.com"⟩ 5 ⟨100, 200, some ⟨some "a.com"⟩, none⟩
    rfl (by decide)

/-- C6.  `matchesDomain` is case-insensitive: its value is unchanged when
either argument is replaced by any string with the same lowercasing, equal
strings always match, and in particular
`matchesDomain("Example.com", "EXAMPLE.COM")` is true. -/
theorem matchesDomain_case_insensitive :
    (∀ h c h₂ c₂ : String, jsToLower h₂ = jsToLower h → jsToLower c₂ = jsToLower c →
        matchesDomain h₂ c₂ = matchesDomain h c) ∧
      (∀ s : String, matchesDomain s s = true) ∧
      matchesDomain "Example.com" "EXAMPLE.COM" = true := by
  refine ⟨fun h c h₂ c₂ eh ec => matchesDomain_toLower_inv h c h₂ c₂ eh ec, fun s => ?_, by decide⟩
  rw [matchesDomain]
  simp

/-- C6 (witness). -/
theorem matchesDomain_case_insensitive_witness :
    matchesDomain "example.COM" "EXAMPLE.com" = matchesDomain "Example.com" "EXAMPLE.COM" :=
  matchesDomain_case_insensitive.1 "Example.com" "EXAMPLE.COM" "example.COM" "EXAMPLE.com"
    (by decide) (by decide)

/-- C7.  A certificate name that is neither case-insensitively equal to the
hostname nor a wildcard never matches; a wildcard `"*." ++ d` never matches
a hostname whose lowercasing does not end with the lowercased `d`; in
particular `matchesDomain("evil.com", "*.example.com")` is false. -/
theorem matchesDomain_no_match :
    (∀ h c : String, jsToLower h ≠ jsToLower c → jsStartsWith c "*." = false →
        matchesDomain h c = false) ∧
      (∀ h d : String, jsEndsWith (jsToLower h) (jsToLower d) = false →
        matchesDomain h ("*." ++ d) = false) ∧
      matchesDomain "evil.com" "*.example.com" = false := by
  refine ⟨fun h c hne hsw => ?_, fun h d hend => ?_, by decide⟩
  · have hsw2 : jsStartsWith (jsToLower c) "*." = false := by
      rw [jsStartsWith_star_toLower]
      exact hsw
    rw [matchesDomain, if_neg hne]
    simp [hsw2]
  · rw [matchesDomain_wildcard_eq, hend]
    rfl

/-- C7 (witness). -/
theorem matchesDomain_no_match_witness :
    matchesDomain "evil.com" "good.com" = false ∧
      matchesDomain "evil.com" "*.example.org" = false :=
  ⟨matchesDomain_no_match.1 "evil.com" "good.com" (by decide) (by decide),
    matchesDomain_no_match.2.1 "evil.com" "example.org" (by decide)⟩

/-- C8.  Both failure events of the certificate fetch settle
`checkSSLCertificate` with a well-formed result — `isValid = false` and a
single descriptive issue: "SSL connection error: ..." for a connection
error, "Connection timed out" for the timeout — instead of propagating an
exception; only the timeout path destroys the in-flight request. -/
theorem checkSSLCertificate_error_paths (u : ParsedUrl) (now : Int) (message : String)
    (hp : u.protocol = "https:") :
    (checkSSLCertificate u now (.connError message)).1 =
        { isValid := false, issues := ["SSL connection error: " ++ message] } ∧
      (checkSSLCertificate u now .timeout).1 =
        { isValid := false, issues := ["Connection timed out"] } ∧
      (checkSSLCertificate u now .timeout).2 = true := by
  refine ⟨?_, ?_, ?_⟩ <;> simp [checkSSLCertificate, hp]

/-- C8 (witness). -/
theorem checkSSLCertificate_error_paths_witness :
    (checkSSLCertificate ⟨"https:", "a.com"⟩ 0 (.connError "ECONNREFUSED")).1 =
        { isValid := false, issues := ["SSL connection error: " ++ "ECONNREFUSED"] } ∧
      (checkSSLCertificate ⟨"https:", "a.com"⟩ 0 .timeout).1 =
        { isValid := false, issues := ["Connection timed out"] } ∧
      (checkSSLCertificate ⟨"https:", "a.com"⟩ 0 .timeout).2 = true :=
  checkSSLCertificate_error_paths ⟨"https:", "a.com"⟩ 0 "ECONNREFUSED" rfl

/-- C9.  In the `/check-url` handler, both the stored record's and the
response's `isSafe` equal `stats.malicious == 0 && stats.suspicious == 0`,
whatever the SSL check produced: SSL issues can only change the free-text
result string, never flip `isSafe`. -/
theorem processUrlCheck_isSafe_independent_of_ssl
    (url : String) (stats : VTStats) (ssl : SslOutcome) :
    (processUrlCheck url stats ssl).1.isSafe =
        (stats.malicious == 0 && stats.suspicious == 0) ∧
      (processUrlCheck url stats ssl).2.isSafe =
        (stats.malicious == 0 && stats.suspicious == 0) := by
  cases ssl with
  | notChecked => simp [processUrlCheck]
  | threw => simp [processUrlCheck]
  | checked r =>
    by_cases hv : r.isValid = true <;> simp [processUrlCheck, hv]

/-- C10.  When the fetched certificate has no subject, or its subject's CN
is absent or empty, `checkSSLCertificate` produces no domain-mismatch issue:
the issue list is exactly the expiry issues, the result is unchanged under
any replacement of the subject-alternative-name field (the SANs are never
consulted), and a valid window alone makes the result valid. -/
theorem checkSSLCertificate_cn_falsy_no_mismatch
    (u : ParsedUrl) (now : Int) (cert : CertificateInfo)
    (hp : u.protocol = "https:")
    (hcn : cert.subject = none ∨
      ∃ subj, cert.subject = some subj ∧ (subj.CN = none ∨ subj.CN = some "")) :
    (checkSSLCertificate u now (.response (some cert))).1.issues = expiryIssues now cert ∧
      (∀ san, (checkSSLCertificate u now
          (.response (some { cert with subjectaltname := san }))).1 =
        (checkSSLCertificate u now (.response (some cert))).1) ∧
      (¬ (now < cert.valid_from ∨ now > cert.valid_to) →
        (checkSSLCertificate u now (.response (some cert))).1.isValid = true) := by
  have hdom : domainIssues u.hostname cert = [] := domainIssues_cn_falsy u.hostname cert hcn
  refine ⟨?_, fun san => ?_, fun hw => ?_⟩
  · simp [checkSSLCertificate, hp, hdom]
  · have hdom2 : domainIssues u.hostname { cert with subjectaltname := san } = [] := by
      apply domainIssues_cn_falsy
      rcases hcn with h1 | ⟨subj, hs, hC⟩
      · exact Or.inl h1
      · exact Or.inr ⟨subj, hs, hC⟩
    simp [checkSSLCertificate, hp, hdom, hdom2, expiryIssues]
  · have he : expiryIssues now cert = [] := by
      rw [expiryIssues, if_neg hw]
    simp [checkSSLCertificate, hp, hdom, he]

/-- C10 (witness): subject entirely absent, window containing `now`. -/
theorem checkSSLCertificate_cn_falsy_no_mismatch_witness :
    (checkSSLCertificate ⟨"https:", "mismatch.example"⟩ 50
        (.response (some ⟨0, 100, none, some "DNS:other.org"⟩))).1.issues =
        expiryIssues 50 ⟨0, 100, none, some "DNS:other.org"⟩ ∧
      (∀ san, (checkSSLCertificate ⟨"https:", "mismatch.example"⟩ 50
          (.response (some { (⟨0, 100, none, some "DNS:other.org"⟩ : CertificateInfo) with
            subjectaltname := san }))).1 =
        (checkSSLCertificate ⟨"https:", "mismatch.example"⟩ 50
          (.response (some ⟨0, 100, none, some "DNS:other.org"⟩))).1) ∧
      (¬ ((50 : Int) < 0 ∨ (50 : Int) > 100) →
        (checkSSLCertificate ⟨"https:", "mismatch.example"⟩ 50
          (.response (some ⟨0, 100, none, some "DNS:other.org"⟩))).1.isValid = true) :=
  checkSSLCertificate_cn_falsy_no_mismatch ⟨"https:", "mismatch.example"⟩ 50
    ⟨0, 100, none, some "DNS:other.org"⟩ rfl (Or.inl rfl)

end CyberFort
